import Mathlib

/-!
Verification of the JARVIS voice-assistant repository.

The development shallowly embeds the parts of the code that the checked
properties concern:

* `src/server/storage.ts` — the in-memory transcript store (`MemStorage`).
* the `/api/jarvis` route of the server (`registerRoutes`) — webhook dispatch,
  empty-upstream fallback, and the order of transcript writes.
* `src/client/src/components/jarvis-interface.tsx` — the conversation
  orchestrator: the `jarvisMutation` success/error handlers, audio playback
  lifecycle, the noise-filtered `recognition.onresult` handler of the unified
  interruption system, `startInterruptDetection` / `stopInterruptDetection`,
  `stopWebSpeechRecognition`, `processAudioInput` and `mediaRecorder.onstop`.

JavaScript strings are modelled as Lean `String`; `String.prototype.trim` is
modelled by `jsTrim` (ASCII whitespace, which covers all inputs the claims
mention).  Recognition confidences (JS numbers in [0,1]) are modelled as exact
rationals, which preserves every comparison against the 0.5 threshold the code
performs.  Browser timers (`setTimeout`) are modelled as scheduled tasks in the
orchestrator state that fire as separate events.  The ElevenLabs widget
integration paths are outside the modelled scope; the Web Speech fallback path
(which the handlers cited by the claims drive) is modelled.
-/

namespace Jarvis

/-- JS `String.prototype.trim`: strip leading and trailing whitespace. -/
def jsTrim (s : String) : String :=
  ⟨((s.data.dropWhile Char.isWhitespace).reverse.dropWhile Char.isWhitespace).reverse⟩

/- ===================== Transcript store (src/server/storage.ts) ============

`MemStorage` keeps a `Map<string, Conversation>`; JS `Map` iterates in
insertion order, so the map is modelled as the list of its values in insertion
order.  `randomUUID` keys are modelled by a fresh counter (`nextId`). -/

/-- One row of the `conversations` table (shared schema). -/
structure Conversation where
  id : Nat
  sessionId : String
  message : String
  sender : String
  timestamp : Nat
  audioUrl : Option String
  metadata : Option String
deriving DecidableEq

/-- The fields accepted by `insertConversationSchema`. -/
structure InsertConversation where
  sessionId : String
  message : String
  sender : String
  audioUrl : Option String := none
  metadata : Option String := none

/-- JS `x || null` applied to an optional string field. -/
def orNull (o : Option String) : Option String :=
  match o with
  | some s => if s = "" then none else some s
  | none => none

/-- The in-memory store: insertion-ordered values of the `Map`, plus the
fresh-id source standing in for `randomUUID`. -/
structure MemStorage where
  conversations : List Conversation
  nextId : Nat

def emptyStorage : MemStorage := { conversations := [], nextId := 0 }

/-- `MemStorage.addConversation`: build the row (fresh id, current time,
`|| null` on the optional fields) and `Map.set` it, i.e. append it. -/
def addConversation (st : MemStorage) (ic : InsertConversation) (now : Nat) :
    MemStorage × Conversation :=
  let c : Conversation :=
    { id := st.nextId
      sessionId := ic.sessionId
      message := ic.message
      sender := ic.sender
      timestamp := now
      audioUrl := orNull ic.audioUrl
      metadata := orNull ic.metadata }
  ({ conversations := st.conversations ++ [c], nextId := st.nextId + 1 }, c)

/-- `MemStorage.getConversations`: filter the values by `sessionId`, then sort
ascending by timestamp (`new Date(...).getTime()` difference comparator; JS
`Array.prototype.sort` is stable, as is `List.mergeSort`). -/
def getConversations (st : MemStorage) (sid : String) : List Conversation :=
  (st.conversations.filter (fun c => c.sessionId == sid)).mergeSort
    (fun a b => a.timestamp ≤ b.timestamp)

/- ===================== /api/jarvis route (server routes) ===================

Translated from `registerRoutes`' `app.post("/api/jarvis", ...)` handler.
Remote effects (the n8n webhook fetch, JSON parsing of its body, and the two
TTS services) enter as explicit outcome parameters. -/

/-- Outcome of the `fetch(webhookUrl, ...)` call. -/
inductive WebhookOutcome
  | fetchFailed
  | badStatus (statusText : String)
  | ok (body : String)

/-- Outcome of the TTS cascade (OpenAI, then ElevenLabs): either some audio
file URL was produced, or both services failed and the route continues without
audio. -/
inductive TtsOutcome
  | audio (url : String)
  | noAudio

/-- `JSON.parse(raw)` followed by `parsed.output || raw`: `po = some o` means
parsing succeeded and the `output` field held the string `o`; `po = none`
means parsing threw or `output` was absent.  A falsy (empty) `output` also
falls back to the raw body. -/
def upstreamReply (raw : String) (po : Option String) : String :=
  match po with
  | some o => if o = "" then raw else o
  | none => raw

/-- The hard-coded substitute used when n8n returns an empty reply. -/
def fallbackMessage : String :=
  "Es tut mir leid, aber ich kann momentan nicht antworten. Bitte überprüfen Sie die n8n-Workflow-Konfiguration oder versuchen Sie es später erneut."

/-- The JSON body and status the route sends back. -/
structure RouteReply where
  status : Nat
  response : Option String
  audioUrl : Option String
  error : Option String
deriving DecidableEq

/-- The `POST /api/jarvis` handler.  `valid` is the outcome of
`jarvisRequestSchema.parse` (a failed parse throws before anything is stored).
The user message is stored first; then the webhook is called; any webhook
failure is caught and becomes a 500; on success the (possibly
fallback-substituted) reply is stored as the assistant turn and returned. -/
def jarvisRoute (st : MemStorage) (valid : Bool) (message sessionId : String)
    (wh : WebhookOutcome) (po : Option String) (tts : TtsOutcome)
    (now1 now2 : Nat) : MemStorage × RouteReply :=
  if valid then
    let st1 := (addConversation st
      { sessionId := sessionId, message := message, sender := "user" } now1).1
    match wh with
    | .fetchFailed =>
        (st1, { status := 500, response := none, audioUrl := none,
                error := some "Failed to process request" })
    | .badStatus _ =>
        (st1, { status := 500, response := none, audioUrl := none,
                error := some "Failed to process request" })
    | .ok raw =>
        let r0 := upstreamReply raw po
        let r := if r0 = "" ∨ jsTrim r0 = "" then fallbackMessage else r0
        let audioUrl := match tts with
          | .audio u => some u
          | .noAudio => none
        let st2 := (addConversation st1
          { sessionId := sessionId, message := r, sender := "jarvis",
            audioUrl := audioUrl } now2).1
        (st2, { status := 200, response := some r, audioUrl := audioUrl,
                error := none })
  else
    (st, { status := 500, response := none, audioUrl := none,
           error := some "Failed to process request" })

/-- The user turn the route stores before calling the webhook. -/
def savedUserTurn (st : MemStorage) (message sessionId : String) (now : Nat) :
    Conversation :=
  { id := st.nextId, sessionId := sessionId, message := message,
    sender := "user", timestamp := now, audioUrl := none, metadata := none }

/- ===================== Speech-result filtering (client) ====================

Translated from the noise-filtered `recognition.onresult` handler of the
unified interruption system in `jarvis-interface.tsx`, together with
`handleNaturalInterruption`. -/

/-- One recognition alternative: `{ transcript, confidence }` (an undefined
confidence enters as 0, matching `alt.confidence || 0`). -/
structure SpeechAlt where
  transcript : String
  confidence : Rat
deriving DecidableEq

/-- `const minConfidence = 0.5`. -/
def minConfidence : Rat := mkRat 1 2

/-- One-or-more repetitions of the character `c` (the regex `c+`). -/
def plusOf (c : Char) (l : List Char) : Bool :=
  decide (l ≠ []) && l.all (fun x => x == c)

/-- The regex `/^(ah+|eh+|um+|hm+|mm+)$/i`, applied to the lowercased
characters. -/
def fillerSound (l : List Char) : Bool :=
  match l with
  | 'a' :: rest => plusOf 'h' rest
  | 'e' :: rest => plusOf 'h' rest
  | 'u' :: rest => plusOf 'm' rest
  | 'h' :: rest => plusOf 'm' rest
  | 'm' :: rest => plusOf 'm' rest
  | _ => false

/-- The regex `/^(la+|na+|da+|ba+)$/i`, applied to the lowercased
characters. -/
def randomSyllable (l : List Char) : Bool :=
  match l with
  | 'l' :: rest => plusOf 'a' rest
  | 'n' :: rest => plusOf 'a' rest
  | 'd' :: rest => plusOf 'a' rest
  | 'b' :: rest => plusOf 'a' rest
  | _ => false

/-- The regex `/^[a-z]$/i`: a single letter. -/
def singleLetter (l : List Char) : Bool :=
  match l with
  | [c] => decide ('a' ≤ c.toLower) && decide (c.toLower ≤ 'z')
  | _ => false

/-- The regex `/^\\W+$/` as written in the source: inside a regex literal
`\\` matches a literal backslash, so this matches a backslash followed by one
or more `W` characters (no `i` flag on this one). -/
def backslashDoubled (l : List Char) : Bool :=
  match l with
  | '\\' :: rest => plusOf 'W' rest
  | _ => false

/-- `noisePatterns.some(pattern => pattern.test(transcript))`. -/
def noisePattern (s : String) : Bool :=
  fillerSound (s.data.map Char.toLower) ||
  randomSyllable (s.data.map Char.toLower) ||
  singleLetter (s.data.map Char.toLower) ||
  backslashDoubled s.data

/-- `alternatives.sort((a, b) => b.confidence - a.confidence)` followed by
taking element `[0]`: the earliest alternative of maximal confidence (the sort
is stable). -/
def pickBestAlternative : List (String × Rat) → Option (String × Rat)
  | [] => none
  | x :: xs => some (xs.foldl (fun best a => if best.2 < a.2 then a else best) x)

/-- What the `onresult` handler decides to do with one recognition result. -/
inductive ResultOutcome
  | ignored
  | interruptUnified (transcript : String)
  | interruptLegacy (transcript : String)
  | command (transcript : String)
deriving DecidableEq

/-- The legacy interruption check and the normal-command dispatch at the tail
of the `onresult` handler: interrupt when JARVIS is speaking and the final
transcript is longer than 3 characters; otherwise process final results as
commands only when no audio is playing. -/
def legacyOrCommand (speaking : Bool) (transcript : String) (isFinal : Bool) :
    ResultOutcome :=
  if speaking ∧ 3 < transcript.length ∧ isFinal then .interruptLegacy transcript
  else if isFinal ∧ ¬ speaking then .command transcript
  else .ignored

/-- The transcript the handler ends up working with: the trimmed first
alternative, replaced — when the result carries several alternatives — by the
highest-confidence alternative above the threshold, if any. -/
def effectiveTranscript (a0 : SpeechAlt) (rest : List SpeechAlt) : String :=
  if 1 < (a0 :: rest).length then
    let alternatives :=
      ((a0 :: rest).map (fun a => (jsTrim a.transcript, a.confidence))).filter
        (fun p => minConfidence < p.2)
    match pickBestAlternative alternatives with
    | some p => p.1
    | none => jsTrim a0.transcript
  else jsTrim a0.transcript

/-- The noise-filtered `recognition.onresult` handler, as a decision function.
`interruptionMode` is `interruptionModeRef.current`, `speaking` is
`currentAudioRef.current !== null`, `alts` are the alternatives of the last
result (the handler configures `maxAlternatives = 3`). -/
def onresultOutcome (interruptionMode speaking : Bool) (alts : List SpeechAlt)
    (isFinal : Bool) : ResultOutcome :=
  match alts with
  | [] => .ignored
  | a0 :: rest =>
    let confidence := a0.confidence
    let transcript := effectiveTranscript a0 rest
    if transcript.length < 2 ∨ confidence < minConfidence then .ignored
    else if noisePattern transcript then .ignored
    else if interruptionMode ∧ isFinal ∧ 2 < transcript.length then
      if speaking ∧ 2 < (jsTrim transcript).length then .interruptUnified transcript
      else legacyOrCommand speaking transcript isFinal
    else legacyOrCommand speaking transcript isFinal

/- ===================== Conversation orchestrator ===========================

The mutable pieces of `JarvisInterface` that the orchestration flow reads and
writes.  `playing` records which created `Audio` elements are currently
emitting sound (an element enters on a successful `play()` and leaves when
paused, ended or errored); `currentAudio` is `currentAudioRef`.  The
`onended`/`onerror` callbacks are per-element closures that stay attached for
the element's whole lifetime, so their events are modelled per element:
`errorQueued` holds the elements on which an `error` event is pending —
resetting an element's `src` to the empty string (part of the stop-and-clear
sequence) makes its resource selection fail and queues such an event.
`restartTimers` holds the pending `setTimeout` recognition restarts, tagged by
the guard the callback runs. -/

/-- Which guard a scheduled recognition-restart callback checks when it
fires: the `audio.onended` restart also requires that no recognition is
running; the `onerror` / `play().catch` / no-audio restarts only check
conversation mode. -/
inductive TimerKind
  | restartChecked
  | restartUnchecked
deriving DecidableEq

structure OrchState where
  conversationMode : Bool
  isWaitingForResponse : Bool
  isRecording : Bool
  status : String
  currentAudio : Option Nat
  playing : List Nat
  errorQueued : List Nat
  nextAudioId : Nat
  recognitionRunning : Bool
  interruptRecognition : Option Nat
  interruptionMode : Bool
  restartTimers : List TimerKind
  toasts : List String
  pendingRequests : List String

def initState : OrchState :=
  { conversationMode := false, isWaitingForResponse := false,
    isRecording := false, status := "Ready for your command.",
    currentAudio := none, playing := [], errorQueued := [], nextAudioId := 0,
    recognitionRunning := false, interruptRecognition := none,
    interruptionMode := false, restartTimers := [], toasts := [],
    pendingRequests := [] }

/-- The recurring stop-and-clear sequence on `currentAudioRef`:
`pause(); currentTime = 0; src = ''; currentAudioRef.current = null`.
Resetting `src` to the empty string queues an `error` event on the superseded
element — whose `onerror` closure stays attached. -/
def pauseCurrentAudio (s : OrchState) : OrchState :=
  match s.currentAudio with
  | some a => { s with playing := s.playing.erase a,
                       errorQueued := s.errorQueued ++ [a],
                       currentAudio := none }
  | none => s

/-- The shorter stop used by `handleNaturalInterruption`:
`pause(); currentAudioRef.current = null` — no `src` reset, so no error event
is queued on the element. -/
def pauseOnlyCurrentAudio (s : OrchState) : OrchState :=
  match s.currentAudio with
  | some a => { s with playing := s.playing.erase a, currentAudio := none }
  | none => s

/-- `stopInterruptDetection`: disable the interruption mode of the unified
recognizer and stop-and-null the legacy interrupt recognition if any. -/
def stopInterruptDetectionFn (s : OrchState) : OrchState :=
  { s with interruptionMode := false, interruptRecognition := none }

/-- `startWebSpeechFallback` up to `recognition.onstart`: a recognition
instance is created and started, and `onstart` records the orchestrator as
listening.  (The ElevenLabs controller/widget branches of
`startWebSpeechRecognition` are outside the modelled scope.) -/
def startWebSpeechFn (s : OrchState) : OrchState :=
  { s with recognitionRunning := true, isRecording := true,
           conversationMode := true, status := "JARVIS is listening, sir..." }

/-- `startInterruptDetection` (unified version): enable interruption mode on
the main recognition; start the main recognition if it is not running and
conversation mode is on.  It never creates a separate interrupt
recognizer. -/
def startInterruptDetectionFn (s : OrchState) : OrchState :=
  let s1 := { s with interruptionMode := true }
  if s1.recognitionRunning then s1
  else if s1.conversationMode then startWebSpeechFn s1
  else s1

/-- Schedule one of the `setTimeout(..., 1000)` recognition restarts. -/
def scheduleRestart (s : OrchState) (k : TimerKind) : OrchState :=
  { s with restartTimers := s.restartTimers ++ [k] }

/-- `jarvisMutation.onSuccess`.  `hasAudio` is whether the response carried an
`audioUrl`; `playOk` is whether `audio.play()` resolved.  With audio: any
previous audio is paused and cleared first, a fresh `Audio` element becomes
current, and on a successful `play()` interrupt detection starts (in
conversation mode).  A rejected `play()` runs the catch handler.  Without
audio, conversation mode schedules a recognition restart. -/
def onSuccessHandler (s : OrchState) (hasAudio playOk : Bool) : OrchState :=
  let s0 := { s with isWaitingForResponse := false }
  if hasAudio then
    let s1 := pauseCurrentAudio s0
    let n := s1.nextAudioId
    let s2 := { s1 with currentAudio := some n, nextAudioId := n + 1,
                        status := "JARVIS is responding..." }
    if playOk then
      let s3 := { s2 with playing := s2.playing ++ [n] }
      if s3.conversationMode then startInterruptDetectionFn s3 else s3
    else
      let s3 := stopInterruptDetectionFn { s2 with currentAudio := none }
      if s3.conversationMode then
        scheduleRestart { s3 with status := "Listening, sir..." } .restartUnchecked
      else
        { s3 with status := "Ready for your command, sir." }
  else
    if s0.conversationMode then
      scheduleRestart { s0 with status := "Listening, sir..." } .restartUnchecked
    else
      { s0 with status := "Ready for your command, sir." }

/-- `audio.onended` of element `a`: fires when that element finishes playing.
The handler body is a closure on the element and runs whether or not `a` is
still the current element — it unconditionally nulls `currentAudioRef`, stops
interrupt detection, and in conversation mode schedules a guarded recognition
restart after the settle delay. -/
def onAudioEnded (s : OrchState) (a : Nat) : OrchState :=
  if a ∈ s.playing then
    let s1 := stopInterruptDetectionFn
      { s with playing := s.playing.erase a, currentAudio := none }
    if s1.conversationMode then
      scheduleRestart { s1 with status := "Listening, sir..." } .restartChecked
    else
      { s1 with status := "Ready for your command, sir." }
  else s

/-- `audio.onerror` of element `a`: fires on a queued error (a superseded
element whose `src` was reset) or on a playback failure of a sounding
element.  Like `onended` it runs regardless of whether `a` is still current
and unconditionally nulls `currentAudioRef`; the scheduled restart only
checks conversation mode. -/
def onAudioError (s : OrchState) (a : Nat) : OrchState :=
  if a ∈ s.errorQueued ∨ a ∈ s.playing then
    let s1 := stopInterruptDetectionFn
      { s with playing := s.playing.erase a,
               errorQueued := s.errorQueued.erase a, currentAudio := none }
    if s1.conversationMode then
      scheduleRestart { s1 with status := "Listening, sir..." } .restartUnchecked
    else
      { s1 with status := "Ready for your command, sir." }
  else s

/-- `jarvisMutation.onError`: clear the waiting flag, force conversation mode
off, show the error status, and raise one destructive toast. -/
def onErrorHandler (s : OrchState) : OrchState :=
  { s with isWaitingForResponse := false, conversationMode := false,
           status := "Error occurred. Ready for your command, sir.",
           toasts := s.toasts ++ ["JARVIS Error"] }

/-- The state effects of the `onresult` handler, dispatching on
`onresultOutcome`.  A unified interruption (`handleNaturalInterruption`)
pauses and clears the audio, disables interruption mode, sends the utterance
as the next command and raises an informational toast; the legacy interruption
pauses, clears and sends; a normal command is sent; filtered results change
nothing. -/
def onResultHandler (s : OrchState) (alts : List SpeechAlt) (isFinal : Bool) :
    OrchState :=
  match onresultOutcome s.interruptionMode s.currentAudio.isSome alts isFinal with
  | .ignored => s
  | .interruptUnified t =>
      let s1 := pauseOnlyCurrentAudio s
      { s1 with interruptionMode := false,
                status := "JARVIS interrupted. Processing your request...",
                pendingRequests := s1.pendingRequests ++ [t],
                toasts := s1.toasts ++ ["JARVIS Interrupted"] }
  | .interruptLegacy t =>
      let s1 := pauseCurrentAudio s
      { s1 with status := "JARVIS interrupted. Processing your request...",
                pendingRequests := s1.pendingRequests ++ [t] }
  | .command t =>
      { s with status := "JARVIS is processing your request...",
               pendingRequests := s.pendingRequests ++ [t] }

/-- The center-click handler: while JARVIS is speaking a click pauses and
clears the audio (in both the widget and the fallback branch); with no audio
playing only the status text changes. -/
def onClickInterrupt (s : OrchState) (widgetFound : Bool) : OrchState :=
  if widgetFound then
    match s.currentAudio with
    | some _ =>
        { pauseCurrentAudio s with status := "Ready for your command, sir..." }
    | none =>
        if ¬ s.conversationMode then
          { s with status := "JARVIS is listening, sir..." }
        else
          { s with status := "Ready for your command, sir..." }
  else
    match s.currentAudio with
    | some _ =>
        { pauseCurrentAudio s with
            status := "Click failed - please try voice button instead" }
    | none =>
        { s with status := "Click failed - please try voice button instead" }

/-- `stopWebSpeechRecognition`: stop current playback, stop interrupt
detection, clear the mode flags, and abort the main recognition. -/
def stopWebSpeechFn (s : OrchState) : OrchState :=
  let s1 := stopInterruptDetectionFn (pauseCurrentAudio s)
  { s1 with conversationMode := false, isRecording := false,
            isWaitingForResponse := false,
            status := "Ready for your command, sir.",
            recognitionRunning := false }

/-- Fire one scheduled recognition restart: run its guard against the state
at firing time, starting the Web Speech recognition when the guard passes. -/
def fireRestartTimer (s : OrchState) (k : TimerKind) : OrchState :=
  if k ∈ s.restartTimers then
    let s1 := { s with restartTimers := s.restartTimers.erase k }
    match k with
    | .restartChecked =>
        if s1.conversationMode ∧ ¬ s1.recognitionRunning then
          startWebSpeechFn s1
        else s1
    | .restartUnchecked =>
        if s1.conversationMode then startWebSpeechFn s1 else s1
  else s

/-- The externally triggered events of the orchestrator.  The media events
carry the element they fire on, since the `onended`/`onerror` closures live on
the individual `Audio` elements. -/
inductive Event
  /-- Modelled from the spec for the trigger only: `apiRequest` (in
  `lib/queryClient`, not under `src/`) rejects on a failed or non-2xx
  `POST /api/jarvis`, which fires `jarvisMutation.onError`; the handler
  itself is embedded from the source. -/
  | respError
  | respSuccess (hasAudio playOk : Bool)
  | audioEnded (a : Nat)
  | audioError (a : Nat)
  | voiceResult (alts : List SpeechAlt) (isFinal : Bool)
  | clickInterrupt (widgetFound : Bool)
  | explicitStop
  | startConversation
  | timerFire (k : TimerKind)

def stepE (s : OrchState) : Event → OrchState
  | .respSuccess hasAudio playOk => onSuccessHandler s hasAudio playOk
  | .respError => onErrorHandler s
  | .audioEnded a => onAudioEnded s a
  | .audioError a => onAudioError s a
  | .voiceResult alts isFinal => onResultHandler s alts isFinal
  | .clickInterrupt widgetFound => onClickInterrupt s widgetFound
  | .explicitStop => stopWebSpeechFn s
  | .startConversation => startWebSpeechFn s
  | .timerFire k => fireRestartTimer s k

/-- Run the orchestrator from `s` through a sequence of events. -/
def runFrom (s : OrchState) : List Event → OrchState
  | [] => s
  | e :: es => runFrom (stepE s e) es

/- ===================== processAudioInput / mediaRecorder.onstop ============ -/

/-- Outcome of `transcribeMutation.mutateAsync` (the `POST /api/transcribe`):
either the request failed (threw), or it returned `{ text }`. -/
inductive TranscriptionOutcome
  | requestFailed
  | transcribed (text : String)

/-- Outcome of `jarvisMutation.mutateAsync` as seen by `processAudioInput`. -/
inductive JarvisCallOutcome
  | succeeded
  | requestFailed

/-- The externally visible effects of one `processAudioInput` run. -/
structure ClientEffects where
  responderCalls : List String
  toasts : List String
  status : String
deriving DecidableEq

/-- `processAudioInput`: transcribe, then — only when the text is truthy and
its trim is truthy — send it to `/api/jarvis`; otherwise raise the
transcription-error toast.  Every failure is caught inside the function (it
never throws to its caller). -/
def processAudioInput (tr : TranscriptionOutcome) (jr : JarvisCallOutcome) :
    ClientEffects :=
  match tr with
  | .requestFailed =>
      { responderCalls := [], toasts := ["Processing Error"],
        status := "Error processing your command. Please try again." }
  | .transcribed t =>
      if t ≠ "" ∧ jsTrim t ≠ "" then
        match jr with
        | .succeeded =>
            { responderCalls := [jsTrim t], toasts := [],
              status := "JARVIS is processing your request..." }
        | .requestFailed =>
            { responderCalls := [jsTrim t], toasts := ["Processing Error"],
              status := "Error processing your command. Please try again." }
      else
        { responderCalls := [], toasts := ["Transcription Error"],
          status := "Could not understand your command. Please try again." }

/-- One track of the `getUserMedia` stream. -/
structure MediaTrack where
  stopped : Bool
deriving DecidableEq

/-- `mediaRecorder.onstop`: assemble the blob, `await processAudioInput`
(total — all its error paths are caught inside), then stop every track of the
stream to free the microphone. -/
def mediaRecorderOnStop (tracks : List MediaTrack)
    (tr : TranscriptionOutcome) (jr : JarvisCallOutcome) :
    ClientEffects × List MediaTrack :=
  let effects := processAudioInput tr jr
  (effects, tracks.map (fun _ => { stopped := true }))

/-- Replay a list of `/api/jarvis` calls against the transcript store: the
only way client-side processing appends turns. -/
def storeAfterResponderCalls (st : MemStorage) (sessionId : String)
    (wh : WebhookOutcome) (po : Option String) (tts : TtsOutcome)
    (now1 now2 : Nat) (calls : List String) : MemStorage :=
  calls.foldl (fun acc m => (jarvisRoute acc true m sessionId wh po tts now1 now2).1) st

/- ===================== Concrete states ===================================== -/

/-- C7: when the upstream workflow returns a literally empty (or
whitespace-only) reply, the `/api/jarvis` route substitutes the fixed
non-empty fallback message both in the stored assistant turn and in the HTTP
response, instead of returning an empty reply. -/
theorem emptyUpstreamFallbackSubstituted
    (st : MemStorage) (message sessionId raw : String) (po : Option String)
    (tts : TtsOutcome) (now1 now2 : Nat)
    (h : jsTrim (upstreamReply raw po) = "") :
    (jarvisRoute st true message sessionId (.ok raw) po tts now1 now2).2.status = 200 ∧
    (jarvisRoute st true message sessionId (.ok raw) po tts now1 now2).2.response
      = some fallbackMessage ∧
    fallbackMessage ≠ "" ∧ jsTrim fallbackMessage ≠ "" ∧
    ∃ assistant : Conversation,
      (jarvisRoute st true message sessionId (.ok raw) po tts now1 now2).1.conversations
        = st.conversations ++ [savedUserTurn st message sessionId now1, assistant] ∧
      assistant.message = fallbackMessage ∧ assistant.sender = "jarvis" := by
  refine ⟨?_, ?_, by decide, by decide, ?_⟩ <;>
    simp [jarvisRoute, addConversation, savedUserTurn, orNull, h]

/-- C10: the `/api/jarvis` route is not atomic on failure: for every valid
request the user message is stored before the webhook call, so a webhook
failure yields a 500 while the store has still gained the user turn; the
assistant turn is appended only on success. -/
theorem jarvisRouteNonAtomicOnFailure
    (st : MemStorage) (message sessionId : String) (po : Option String)
    (tts : TtsOutcome) (now1 now2 : Nat) :
    ((jarvisRoute st true message sessionId .fetchFailed po tts now1 now2).2.status = 500 ∧
     (jarvisRoute st true message sessionId .fetchFailed po tts now1 now2).1.conversations
       = st.conversations ++ [savedUserTurn st message sessionId now1]) ∧
    (∀ stext : String,
     (jarvisRoute st true message sessionId (.badStatus stext) po tts now1 now2).2.status = 500 ∧
     (jarvisRoute st true message sessionId (.badStatus stext) po tts now1 now2).1.conversations
       = st.conversations ++ [savedUserTurn st message sessionId now1]) ∧
    (∀ raw : String,
     (jarvisRoute st true message sessionId (.ok raw) po tts now1 now2).2.status = 200 ∧
     ∃ assistant : Conversation,
       (jarvisRoute st true message sessionId (.ok raw) po tts now1 now2).1.conversations
         = st.conversations ++ [savedUserTurn st message sessionId now1, assistant] ∧
       assistant.sender = "jarvis") := by
  refine ⟨⟨?_, ?_⟩, fun stext => ⟨?_, ?_⟩, fun raw => ⟨?_, ?_⟩⟩ <;>
    simp [jarvisRoute, addConversation, savedUserTurn, orNull]

/-- C3: a transcription whose text is empty or whitespace-only causes no call
to the responder service (hence no user turn is stored), raises the
transcription-error toast as a soft failure, and sets the corresponding
status. -/
theorem emptyTranscriptionIsNoOp (t : String) (jr : JarvisCallOutcome)
    (h : jsTrim t = "") :
    (processAudioInput (.transcribed t) jr).responderCalls = [] ∧
    (processAudioInput (.transcribed t) jr).toasts = ["Transcription Error"] ∧
    (processAudioInput (.transcribed t) jr).status
      = "Could not understand your command. Please try again." ∧
    (∀ st sessionId wh po tts now1 now2,
      storeAfterResponderCalls st sessionId wh po tts now1 now2
        (processAudioInput (.transcribed t) jr).responderCalls = st) := by
  refine ⟨?_, ?_, ?_, ?_⟩ <;>
    simp [processAudioInput, h, storeAfterResponderCalls]

/-- Witness for C3 at the concrete whitespace-only transcription `"   "`. -/
theorem emptyTranscriptionIsNoOpWitness :
    (processAudioInput (.transcribed "   ") .succeeded).responderCalls = [] :=
  (emptyTranscriptionIsNoOp "   " .succeeded (by decide)).1

/-- Witness for C7 at the concrete empty upstream body. -/
theorem emptyUpstreamFallbackSubstitutedWitness :
    (jarvisRoute emptyStorage true "hello" "s" (.ok "") none .noAudio 1 2).2.response
      = some fallbackMessage :=
  (emptyUpstreamFallbackSubstituted emptyStorage "hello" "s" "" none .noAudio 1 2
    (by decide)).2.1

/-- C9: `mediaRecorder.onstop` stops every acquired media track after the
recorded audio has been processed, for every processing outcome (including
transcription and responder failures, which `processAudioInput` catches
internally), so no finished capture leaves the microphone held. -/
theorem captureReleasesMicTracks (tracks : List MediaTrack)
    (tr : TranscriptionOutcome) (jr : JarvisCallOutcome) :
    ((mediaRecorderOnStop tracks tr jr).2.all fun t => t.stopped) = true ∧
    (mediaRecorderOnStop tracks tr jr).2.length = tracks.length := by
  constructor <;> simp [mediaRecorderOnStop, List.all_eq_true]

/-- C8: the transcript store is append-only and ordered: `addConversation`
appends and never mutates or deletes existing entries; `getConversations`
returns exactly the conversations of the requested session, sorted ascending
by timestamp — which is arrival order whenever timestamps arrive
monotonically. -/
theorem transcriptStoreAppendOnlyOrdered (st : MemStorage)
    (ic : InsertConversation) (now : Nat) (sid : String) :
    ((addConversation st ic now).1.conversations
       = st.conversations ++ [(addConversation st ic now).2]) ∧
    (∀ c : Conversation, c ∈ getConversations st sid ↔
       c ∈ st.conversations ∧ c.sessionId = sid) ∧
    (getConversations st sid).Pairwise (fun a b => a.timestamp ≤ b.timestamp) ∧
    (st.conversations.Pairwise (fun a b => a.timestamp ≤ b.timestamp) →
       getConversations st sid
         = st.conversations.filter (fun c => c.sessionId == sid)) := by
  refine ⟨rfl, ?_, ?_, ?_⟩
  · intro c
    have hp := List.mergeSort_perm
      (st.conversations.filter fun c => c.sessionId == sid)
      (fun a b => a.timestamp ≤ b.timestamp)
    simp [getConversations, hp.mem_iff, List.mem_filter]
  · have hs := @List.sorted_mergeSort Conversation
      (fun a b => decide (a.timestamp ≤ b.timestamp))
      (by intro a b c hab hbc; simp at hab hbc ⊢; omega)
      (by intro a b; simpa using Nat.le_total a.timestamp b.timestamp)
      (st.conversations.filter fun c => c.sessionId == sid)
    exact hs.imp (fun h => by simpa using h)
  · intro hsorted
    apply List.mergeSort_of_sorted
    exact (hsorted.sublist (List.filter_sublist _)).imp (fun h => by simpa using h)

/-- Witness for C8 on a concrete two-entry store with monotone timestamps. -/
theorem transcriptStoreAppendOnlyOrderedWitness :
    getConversations
      { conversations := [⟨0, "s", "hello", "user", 1, none, none⟩,
                          ⟨1, "s", "done", "jarvis", 2, none, none⟩],
        nextId := 2 } "s"
      = List.filter (fun c => c.sessionId == "s")
          [⟨0, "s", "hello", "user", 1, none, none⟩,
           ⟨1, "s", "done", "jarvis", 2, none, none⟩] :=
  (transcriptStoreAppendOnlyOrdered
    { conversations := [⟨0, "s", "hello", "user", 1, none, none⟩,
                        ⟨1, "s", "done", "jarvis", 2, none, none⟩],
      nextId := 2 }
    ⟨"s", "m", "user", none, none⟩ 0 "s").2.2.2 (by decide)

/- ===================== Orchestrator lemmas ================================= -/

lemma pauseCurrentAudio_interruptRecognition (s : OrchState) :
    (pauseCurrentAudio s).interruptRecognition = s.interruptRecognition := by
  unfold pauseCurrentAudio
  cases hc : s.currentAudio <;> simp [hc]

lemma pauseOnlyCurrentAudio_interruptRecognition (s : OrchState) :
    (pauseOnlyCurrentAudio s).interruptRecognition = s.interruptRecognition := by
  unfold pauseOnlyCurrentAudio
  cases hc : s.currentAudio <;> simp [hc]

lemma interruptRecognition_stepE (s : OrchState) (e : Event)
    (h : s.interruptRecognition = none) :
    (stepE s e).interruptRecognition = none := by
  cases e <;>
    simp only [stepE, onSuccessHandler, onErrorHandler, onAudioEnded, onAudioError,
      onResultHandler, onClickInterrupt, stopWebSpeechFn, startWebSpeechFn,
      startInterruptDetectionFn, stopInterruptDetectionFn, scheduleRestart,
      fireRestartTimer] <;>
    (repeat' split) <;>
    simp_all [pauseCurrentAudio_interruptRecognition,
      pauseOnlyCurrentAudio_interruptRecognition]

lemma interruptRecognition_runFrom (s : OrchState) (es : List Event)
    (h : s.interruptRecognition = none) :
    (runFrom s es).interruptRecognition = none := by
  induction es generalizing s with
  | nil => exact h
  | cons e es ih => exact ih _ (interruptRecognition_stepE s e h)

/- ===================== Orchestrator theorems =============================== -/

/-- C1: the claimed no-overlap invariant fails on the code at a concrete
input.  Two audio responses in a row make `onSuccess` pause element 0 and
reset its `src`, queuing an `error` event on it while element 1 plays.  That
stale per-element `onerror` then fires and unconditionally nulls
`currentAudioRef`, leaving element 1 playing but untracked; the next audio
response finds the ref null, skips the stop-and-clear, and starts element 2
over the still-playing element 1 — two simultaneous playbacks, the exact
double-voices condition the handler's own comment says it must prevent. -/
theorem doubleVoicesFailingInput :
    (runFrom initState [Event.respSuccess true true, Event.respSuccess true true,
        Event.audioError 0]).currentAudio = none ∧
    (runFrom initState [Event.respSuccess true true, Event.respSuccess true true,
        Event.audioError 0]).playing = [1] ∧
    (runFrom initState [Event.respSuccess true true, Event.respSuccess true true,
        Event.audioError 0, Event.respSuccess true true]).playing = [1, 2] ∧
    1 < (runFrom initState [Event.respSuccess true true, Event.respSuccess true true,
        Event.audioError 0, Event.respSuccess true true]).playing.length := by
  refine ⟨by decide, by decide, by decide, by decide⟩

/-- C5: the interruption recognizer is torn down whenever `Speaking` is
exited: along every event sequence the dedicated interrupt recognizer
(`interruptRecognitionRef`) is never live — `startInterruptDetection` only
flags the main recognizer — and the completion, error and explicit-stop
handlers unconditionally clear it even from an arbitrary state, so it is
never still listening while the orchestrator is idle. -/
theorem interruptRecognizerTornDown :
    (∀ es : List Event, (runFrom initState es).interruptRecognition = none) ∧
    (∀ s : OrchState, ∀ a : Nat, a ∈ s.playing →
       (onAudioEnded s a).interruptRecognition = none ∧
       (onAudioError s a).interruptRecognition = none) ∧
    (∀ s : OrchState, ∀ a : Nat, a ∈ s.errorQueued →
       (onAudioError s a).interruptRecognition = none) ∧
    (∀ s : OrchState, (stopWebSpeechFn s).interruptRecognition = none) ∧
    (∀ s : OrchState, (onSuccessHandler s true false).interruptRecognition = none) := by
  refine ⟨fun es => interruptRecognition_runFrom initState es rfl, ?_, ?_, ?_, ?_⟩
  · intro s a ha
    constructor
    · simp only [onAudioEnded, stopInterruptDetectionFn, scheduleRestart]
      rw [if_pos ha]
      split <;> rfl
    · simp only [onAudioError, stopInterruptDetectionFn, scheduleRestart]
      rw [if_pos (Or.inr ha)]
      split <;> rfl
  · intro s a ha
    simp only [onAudioError, stopInterruptDetectionFn, scheduleRestart]
    rw [if_pos (Or.inl ha)]
    split <;> rfl
  · intro s
    rfl
  · intro s
    simp only [onSuccessHandler]
    rw [if_pos (by simp), if_neg (by simp)]
    split <;> rfl

/-- Witness for C5 at a concrete speaking state. -/
theorem interruptRecognizerTornDownWitness :
    (onAudioEnded { initState with playing := [0] } 0).interruptRecognition = none :=
  (interruptRecognizerTornDown.2.1 { initState with playing := [0] } 0 (by decide)).1

/-- C2: a failed responder request (`jarvisMutation.onError`) forces
`conversationMode` to false regardless of its prior value, clears the waiting
flag, raises exactly one error toast, and returns the orchestrator to the
idle ready state (in particular, from a non-speaking state nothing is left
playing and no restart is scheduled). -/
theorem responderFailureFailSafe (s : OrchState) :
    (stepE s .respError).conversationMode = false ∧
    (stepE s .respError).toasts = s.toasts ++ ["JARVIS Error"] ∧
    (stepE s .respError).isWaitingForResponse = false ∧
    (stepE s .respError).status = "Error occurred. Ready for your command, sir." ∧
    (s.currentAudio = none →
       (stepE s .respError).currentAudio = none ∧
       (stepE s .respError).restartTimers = s.restartTimers) := by
  exact ⟨rfl, rfl, rfl, rfl, fun h => ⟨h, rfl⟩⟩

/-- Witness for C2 at the initial (idle, conversation-mode-on) state. -/
theorem responderFailureFailSafeWitness :
    (stepE { initState with conversationMode := true } .respError).conversationMode = false ∧
    (stepE { initState with conversationMode := true } .respError).currentAudio = none :=
  ⟨(responderFailureFailSafe { initState with conversationMode := true }).1,
   ((responderFailureFailSafe { initState with conversationMode := true }).2.2.2.2 rfl).1⟩

lemma legacyOrCommand_interrupt (sp : Bool) (tr : String) (fin : Bool) (t : String)
    (h : legacyOrCommand sp tr fin = .interruptUnified t ∨
         legacyOrCommand sp tr fin = .interruptLegacy t) :
    t = tr ∧ 3 < tr.length := by
  unfold legacyOrCommand at h
  split at h
  · rcases h with h | h
    · exact absurd h (by simp)
    · rename_i hcond
      injection h with h1
      exact ⟨h1.symm, hcond.2.1⟩
  · split at h
    · rcases h with h | h <;> simp at h
    · rcases h with h | h <;> simp at h

/-- C6: while the assistant is speaking, a recognized utterance triggers an
interruption only if it passes every filter of the noise-filtered `onresult`
handler — it is long enough (strictly more than the 2-character minimum), its
first alternative's confidence is at least the 0.5 minimum, and it matches no
filler-word noise pattern.  In particular `"stop"` (confidence 0.9, length 4)
interrupts, while `"uh"` (confidence 0.9, length 2) is discarded silently and
leaves the playback state untouched. -/
theorem interruptionFilterPolicy :
    (∀ (im sp : Bool) (a0 : SpeechAlt) (rest : List SpeechAlt) (fin : Bool) (t : String),
       (onresultOutcome im sp (a0 :: rest) fin = .interruptUnified t ∨
        onresultOutcome im sp (a0 :: rest) fin = .interruptLegacy t) →
       2 < t.length ∧ noisePattern t = false ∧ minConfidence ≤ a0.confidence) ∧
    onresultOutcome true true [⟨"stop", mkRat 9 10⟩] true = .interruptUnified "stop" ∧
    onresultOutcome true true [⟨"uh", mkRat 9 10⟩] true = .ignored ∧
    (∀ (s : OrchState) (a : Nat), s.currentAudio = some a →
       (onResultHandler s [⟨"uh", mkRat 9 10⟩] true).playing = s.playing ∧
       (onResultHandler s [⟨"uh", mkRat 9 10⟩] true).currentAudio = s.currentAudio) := by
  refine ⟨?_, by decide, by decide, ?_⟩
  · intro im sp a0 rest fin t hout
    simp only [onresultOutcome] at hout
    split at hout
    · rcases hout with h | h <;> simp at h
    · rename_i h1
      split at hout
      · rcases hout with h | h <;> simp at h
      · rename_i h2
        split at hout
        · rename_i h3
          split at hout
          · rcases hout with h | h
            · injection h with h5
              subst h5
              exact ⟨h3.2.2, by simpa using h2, le_of_not_lt (not_or.mp h1).2⟩
            · simp at h
          · obtain ⟨h5, h6⟩ := legacyOrCommand_interrupt _ _ _ _ hout
            subst h5
            exact ⟨by omega, by simpa using h2, le_of_not_lt (not_or.mp h1).2⟩
        · rename_i h3
          obtain ⟨h5, h6⟩ := legacyOrCommand_interrupt _ _ _ _ hout
          subst h5
          exact ⟨by omega, by simpa using h2, le_of_not_lt (not_or.mp h1).2⟩
  · intro s a ha
    have hsp : s.currentAudio.isSome = true := by simp [ha]
    have hout : onresultOutcome s.interruptionMode true [⟨"uh", mkRat 9 10⟩] true
        = .ignored := by
      cases hm : s.interruptionMode <;> decide
    simp [onResultHandler, hsp, hout]

/-- Witness for C6 at the concrete interrupting utterance `"stop"`. -/
theorem interruptionFilterPolicyWitness :
    2 < ("stop" : String).length ∧ noisePattern "stop" = false ∧
    minConfidence ≤ (SpeechAlt.mk "stop" (mkRat 9 10)).confidence :=
  interruptionFilterPolicy.1 true true ⟨"stop", mkRat 9 10⟩ [] true "stop"
    (Or.inl (by decide))

end Jarvis
